import Mathlib

/-!
Verification of the serializer-configuration layer of `rmp-serde`
(`src/rmp-serde/src/config.rs`).

The file shallow-embeds the configuration types (`DefaultConfig`,
`StructMapConfig`, `StructTupleConfig`, `HumanReadableConfig`,
`BinaryConfig`, `ExtConfig`) and the five hooks of the sealed
`SerializerConfig` trait (`write_struct_len`, `write_struct_field`,
`write_variant_ident`, `is_human_readable`, `write_ext`,
`try_read_ext`).  The low-level byte primitives (`write_array_len`,
`write_map_len`, `write_str`, `serialize`) are external to the layer
under study; output is therefore modelled at the granularity of the
wire instruction they emit (a `Token`), and the decode-side reader is a
list of such tokens.
-/

namespace RmpSerde

/-- Modelled from the spec: the Extension Envelope (`crate::Ext`, whose
definition is outside `config.rs`) — "a tagged binary blob consisting of
a small integer type-tag and a payload of known type". -/
structure Ext (α : Type) where
  tag : Int
  data : α
deriving DecidableEq, Repr

/-- One wire instruction emitted by a hook.  `α` is the extension payload
type configured on the policy chain, `β` the type of values the generic
traversal engine serializes through `write_struct_field`.
`arrayLen`/`mapLen` carry the 32-bit length value handed to
`write_array_len`/`write_map_len`; `str` is a MessagePack string
(`write_str` or `serialize_str`); `value` is the default encoding of a
field value; `ext` is a full extension wire value as written by
`Ext::serialize`. -/
inductive Token (α β : Type) where
  | arrayLen (n : Nat)
  | mapLen (n : Nat)
  | str (s : String)
  | value (v : β)
  | ext (e : Ext α)
deriving DecidableEq, Repr

/-- The `rmp::Marker` byte-level discriminator (external vocabulary of the
layer; variants as in the `rmp` crate).  `FalseB`/`TrueB` stand for the
crate's `False`/`True` variants. -/
inductive Marker where
  | FixPos (n : Nat)
  | FixNeg (n : Int)
  | Null
  | Reserved
  | FalseB
  | TrueB
  | U8 | U16 | U32 | U64
  | I8 | I16 | I32 | I64
  | F32 | F64
  | FixStr (n : Nat)
  | Str8 | Str16 | Str32
  | Bin8 | Bin16 | Bin32
  | FixArray (n : Nat)
  | Array16 | Array32
  | FixMap (n : Nat)
  | Map16 | Map32
  | FixExt1 | FixExt2 | FixExt4 | FixExt8 | FixExt16
  | Ext8 | Ext16 | Ext32
deriving DecidableEq, Repr

/-- Decode-side error; the layer only ever propagates failures of the
underlying reader / payload decoding. -/
inductive DecodeError where
  | extDecode
deriving DecidableEq, Repr

/-- Modelled from the spec: `Ext::deserialize` (the `Deserialize` impl of
`crate::Ext`, outside `config.rs`) — decoding an Extension Envelope of
the configured payload type from the reader.  It consumes the envelope
when the stream holds one and otherwise fails with a propagated decode
error. -/
def Ext.deserialize {α β : Type} :
    List (Token α β) → Except DecodeError (Ext α × List (Token α β))
  | Token.ext e :: rest => Except.ok (e, rest)
  | _ => Except.error DecodeError.extDecode

/-- A serializer configuration: the leaf `DefaultConfig` and the five
decorator wrappers of `config.rs`, each holding its inner configuration.
The extension payload type parameter `B` of `ExtConfig<C, B>` is the
`α` parameter of the hook functions below. -/
inductive Config where
  | DefaultConfig
  | StructMapConfig (inner : Config)
  | StructTupleConfig (inner : Config)
  | HumanReadableConfig (inner : Config)
  | BinaryConfig (inner : Config)
  | ExtConfig (inner : Config)
deriving DecidableEq, Repr

/-- `write_struct_len`: `DefaultConfig` and `StructTupleConfig` call
`write_array_len(ser.get_mut(), len as u32)`, `StructMapConfig` calls
`write_map_len(ser.get_mut(), len as u32)`; the mode and extension
wrappers delegate to the inner configuration.  The Rust `len as u32`
cast is `len % 2 ^ 32`. -/
def write_struct_len {α β : Type} : Config → Nat → List (Token α β)
  | Config.DefaultConfig, len => [Token.arrayLen (len % 2 ^ 32)]
  | Config.StructMapConfig _, len => [Token.mapLen (len % 2 ^ 32)]
  | Config.StructTupleConfig _, len => [Token.arrayLen (len % 2 ^ 32)]
  | Config.HumanReadableConfig c, len => write_struct_len c len
  | Config.BinaryConfig c, len => write_struct_len c len
  | Config.ExtConfig c, len => write_struct_len c len

/-- `write_struct_field`: `DefaultConfig` and `StructTupleConfig` ignore
the key and run `value.serialize(ser)`; `StructMapConfig` first runs
`write_str(ser.get_mut(), key)` and then `value.serialize(ser)`; the
mode and extension wrappers delegate. -/
def write_struct_field {α β : Type} : Config → String → β → List (Token α β)
  | Config.DefaultConfig, _, v => [Token.value v]
  | Config.StructMapConfig _, key, v => [Token.str key, Token.value v]
  | Config.StructTupleConfig _, _, v => [Token.value v]
  | Config.HumanReadableConfig c, key, v => write_struct_field c key v
  | Config.BinaryConfig c, key, v => write_struct_field c key v
  | Config.ExtConfig c, key, v => write_struct_field c key v

/-- `write_variant_ident`: `DefaultConfig` runs
`ser.serialize_str(variant)` (the variant name as a string, the index is
ignored); every wrapper delegates. -/
def write_variant_ident {α β : Type} : Config → Nat → String → List (Token α β)
  | Config.DefaultConfig, _, variant => [Token.str variant]
  | Config.StructMapConfig c, i, variant => write_variant_ident c i variant
  | Config.StructTupleConfig c, i, variant => write_variant_ident c i variant
  | Config.HumanReadableConfig c, i, variant => write_variant_ident c i variant
  | Config.BinaryConfig c, i, variant => write_variant_ident c i variant
  | Config.ExtConfig c, i, variant => write_variant_ident c i variant

/-- `is_human_readable`: `DefaultConfig` returns `false`,
`HumanReadableConfig` returns `true`, `BinaryConfig` returns `false`;
the shape and extension wrappers delegate. -/
def is_human_readable : Config → Bool
  | Config.DefaultConfig => false
  | Config.StructMapConfig c => is_human_readable c
  | Config.StructTupleConfig c => is_human_readable c
  | Config.HumanReadableConfig _ => true
  | Config.BinaryConfig _ => false
  | Config.ExtConfig c => is_human_readable c

/-- `write_ext`: the sealed-trait default (used by `DefaultConfig`)
writes nothing and returns `Ok(())`; the shape and mode wrappers
delegate; `ExtConfig` runs `ext.serialize(ser)`, which (modelled from
the spec) writes the envelope as one extension wire value. -/
def write_ext {α β : Type} : Config → Ext α → List (Token α β)
  | Config.DefaultConfig, _ => []
  | Config.StructMapConfig c, e => write_ext c e
  | Config.StructTupleConfig c, e => write_ext c e
  | Config.HumanReadableConfig c, e => write_ext c e
  | Config.BinaryConfig c, e => write_ext c e
  | Config.ExtConfig _, e => [Token.ext e]

/-- The marker set matched by `ExtConfig::try_read_ext` (lines 529–538
of `config.rs`): `FixExt1 | FixExt2 | FixExt4 | FixExt8 | FixExt16 |
Ext8 | Ext16 | Ext32`. -/
def extFamily : Marker → Bool
  | Marker.FixExt1 | Marker.FixExt2 | Marker.FixExt4 | Marker.FixExt8
  | Marker.FixExt16 | Marker.Ext8 | Marker.Ext16 | Marker.Ext32 => true
  | _ => false

/-- The extension-marker family as the spec's words count it: "four
fixed small sizes, plus three length-prefixed size classes", i.e. the
four smallest fixed sizes `FixExt1/2/4/8` plus `Ext8/16/32`.  Written
from the spec's words for comparison with `extFamily`, which is written
from the source. -/
def extFamilySpec : Marker → Bool
  | Marker.FixExt1 | Marker.FixExt2 | Marker.FixExt4 | Marker.FixExt8
  | Marker.Ext8 | Marker.Ext16 | Marker.Ext32 => true
  | _ => false

/-- `try_read_ext`: the sealed-trait default (used by `DefaultConfig`)
ignores the reader and the marker and returns `Ok(None)`; the shape and
mode wrappers delegate; `ExtConfig` matches the marker against the
extension family and, on a match, returns
`Ext::deserialize(der).map(Some)`, otherwise `Ok(None)` with the reader
untouched.  The result pairs the returned `Option<Ext>` with the
remaining reader stream. -/
def try_read_ext {α β : Type} :
    Config → List (Token α β) → Marker →
    Except DecodeError (Option (Ext α) × List (Token α β))
  | Config.DefaultConfig, der, _ => Except.ok (none, der)
  | Config.StructMapConfig c, der, m => try_read_ext c der m
  | Config.StructTupleConfig c, der, m => try_read_ext c der m
  | Config.HumanReadableConfig c, der, m => try_read_ext c der m
  | Config.BinaryConfig c, der, m => try_read_ext c der m
  | Config.ExtConfig _, der, m =>
    if extFamily m then
      (Ext.deserialize der).map (fun p => (some p.1, p.2))
    else
      Except.ok (none, der)

/-- Claim C1, counterexample: the spec counts the extension family as
"four fixed small sizes plus three length-prefixed size classes", which
excludes `FixExt16`; the code's `try_read_ext` nevertheless treats
`FixExt16` as handled and decodes an envelope there. -/
theorem C1_counterexample :
    extFamilySpec Marker.FixExt16 = false ∧
    extFamily Marker.FixExt16 = true ∧
    try_read_ext (α := Unit) (β := Unit) (Config.ExtConfig Config.DefaultConfig)
        [Token.ext ⟨1, ()⟩] Marker.FixExt16 =
      Except.ok (some ⟨1, ()⟩, []) :=
  ⟨rfl, rfl, rfl⟩

/-- Claim C1 (amended): `ExtConfig`'s `try_read_ext` attempts an
Extension Envelope decode exactly when the marker is one of the eight
extension-family markers — five fixed small sizes (`FixExt1/2/4/8/16`)
plus three length-prefixed size classes (`Ext8/16/32`) — and returns
not handled for every other marker. -/
theorem C1_ext_marker_family (α β : Type) (c : Config) (m : Marker)
    (der : List (Token α β)) :
    (extFamily m = true ↔
      m = Marker.FixExt1 ∨ m = Marker.FixExt2 ∨ m = Marker.FixExt4 ∨
      m = Marker.FixExt8 ∨ m = Marker.FixExt16 ∨ m = Marker.Ext8 ∨
      m = Marker.Ext16 ∨ m = Marker.Ext32) ∧
    try_read_ext (Config.ExtConfig c) der m =
      (if extFamily m then
        (Ext.deserialize der).map (fun p => (some p.1, p.2))
       else Except.ok (none, der)) := by
  refine ⟨?_, rfl⟩
  cases m <;> simp [extFamily]

/-- Claim C2: writing an envelope through `ExtConfig`'s `write_ext` and
reading the produced stream back with `try_read_ext` (under the
extension-family marker that heads the produced wire value) returns the
original envelope as handled with the stream fully consumed; on a
non-extension marker `try_read_ext` returns not handled and leaves the
reader untouched. -/
theorem C2_ext_roundtrip (α β : Type) (c : Config) (e : Ext α)
    (m mOther : Marker) (der : List (Token α β))
    (hm : extFamily m = true) (hs : extFamily mOther = false) :
    try_read_ext (Config.ExtConfig c) (write_ext (Config.ExtConfig c) e) m =
      Except.ok (some e, ([] : List (Token α β))) ∧
    try_read_ext (Config.ExtConfig c) der mOther = Except.ok (none, der) := by
  constructor
  · simp [try_read_ext, write_ext, hm, Ext.deserialize, Except.map]
  · simp [try_read_ext, hs]

/-- Claim C2 witness at a concrete payload, with `FixExt4` as the
extension marker and a plain-string marker as the non-extension one. -/
theorem C2_ext_roundtrip_witness :
    extFamily Marker.FixExt4 = true ∧
    extFamily (Marker.FixStr 2) = false ∧
    (try_read_ext (Config.ExtConfig Config.DefaultConfig)
        (write_ext (Config.ExtConfig Config.DefaultConfig) (⟨5, 42⟩ : Ext Nat))
        Marker.FixExt4 =
      Except.ok (some ⟨5, 42⟩, ([] : List (Token Nat Unit))) ∧
    try_read_ext (α := Nat) (β := Unit) (Config.ExtConfig Config.DefaultConfig)
        [Token.str "ab"] (Marker.FixStr 2) =
      Except.ok (none, [Token.str "ab"])) :=
  ⟨rfl, rfl,
    C2_ext_roundtrip Nat Unit Config.DefaultConfig ⟨5, 42⟩ Marker.FixExt4
      (Marker.FixStr 2) [Token.str "ab"] rfl rfl⟩

/-- Claim C3: the outermost shape decorator wins —
`StructMapConfig (StructTupleConfig c1)` opens records with a map-length
instruction and writes key then value, while
`StructTupleConfig (StructMapConfig c2)` opens records with an
array-length instruction and writes only the value. -/
theorem C3_outer_shape_wins (α β : Type) (c1 c2 : Config) (n : Nat)
    (k : String) (v : β) :
    write_struct_len (α := α) (β := β)
        (Config.StructMapConfig (Config.StructTupleConfig c1)) n =
      [Token.mapLen (n % 2 ^ 32)] ∧
    write_struct_field (α := α)
        (Config.StructMapConfig (Config.StructTupleConfig c1)) k v =
      [Token.str k, Token.value v] ∧
    write_struct_len (α := α) (β := β)
        (Config.StructTupleConfig (Config.StructMapConfig c2)) n =
      [Token.arrayLen (n % 2 ^ 32)] ∧
    write_struct_field (α := α)
        (Config.StructTupleConfig (Config.StructMapConfig c2)) k v =
      [Token.value v] :=
  ⟨rfl, rfl, rfl, rfl⟩

/-- Claim C4: on a recognized extension marker a failing envelope decode
propagates as an error, never as the not-handled result; `Ok(None)` can
only arise from a marker outside the extension family. -/
theorem C4_error_propagation (α β : Type) (c : Config) (m : Marker)
    (der : List (Token α β)) (err : DecodeError)
    (hm : extFamily m = true)
    (hd : Ext.deserialize der = Except.error err) :
    try_read_ext (Config.ExtConfig c) der m = Except.error err ∧
    ∀ (m2 : Marker) (d2 rest : List (Token α β)),
      try_read_ext (Config.ExtConfig c) d2 m2 = Except.ok (none, rest) →
        extFamily m2 = false := by
  constructor
  · simp [try_read_ext, hm, hd, Except.map]
  · intro m2 d2 rest h
    cases hfam : extFamily m2
    · rfl
    · exfalso
      simp only [try_read_ext, hfam, if_true] at h
      cases hdes : Ext.deserialize (α := α) (β := β) d2 with
      | ok p => rw [hdes] at h; simp [Except.map] at h
      | error e2 => rw [hdes] at h; simp [Except.map] at h

/-- Claim C4 witness: with an empty reader the envelope decode fails and
the failure propagates through `try_read_ext` on marker `Ext8`. -/
theorem C4_error_propagation_witness :
    extFamily Marker.Ext8 = true ∧
    Ext.deserialize (α := Unit) (β := Unit) [] =
      Except.error DecodeError.extDecode ∧
    try_read_ext (α := Unit) (β := Unit)
        (Config.ExtConfig Config.DefaultConfig) [] Marker.Ext8 =
      Except.error DecodeError.extDecode :=
  ⟨rfl, rfl,
    (C4_error_propagation Unit Unit Config.DefaultConfig Marker.Ext8 []
      DecodeError.extDecode rfl rfl).1⟩

/-- Claim C5: `DefaultConfig` opens records with an array-length
instruction, ignores the field key and writes only the value, writes the
variant name as a string, reports not human readable, and its extension
hooks are the trait defaults — `write_ext` emits nothing and
`try_read_ext` returns not handled for every marker with the reader
untouched. -/
theorem C5_default_config (α β : Type) (n : Nat) (k : String) (v : β)
    (i : Nat) (vname : String) (e : Ext α) (m : Marker)
    (der : List (Token α β)) :
    write_struct_len (α := α) (β := β) Config.DefaultConfig n =
      [Token.arrayLen (n % 2 ^ 32)] ∧
    write_struct_field (α := α) Config.DefaultConfig k v = [Token.value v] ∧
    write_variant_ident (α := α) (β := β) Config.DefaultConfig i vname =
      [Token.str vname] ∧
    is_human_readable Config.DefaultConfig = false ∧
    write_ext (β := β) Config.DefaultConfig e = [] ∧
    try_read_ext Config.DefaultConfig der m = Except.ok (none, der) :=
  ⟨rfl, rfl, rfl, rfl, rfl, rfl⟩

/-- Claim C6: `HumanReadableConfig` reports human readable and
`BinaryConfig` reports not human readable, each regardless of the inner
configuration; in particular for `Readable(Base)` and
`Compact(Readable(Base))`. -/
theorem C6_mode_flags (c c2 : Config) :
    is_human_readable (Config.HumanReadableConfig c) = true ∧
    is_human_readable (Config.BinaryConfig c2) = false ∧
    is_human_readable (Config.HumanReadableConfig Config.DefaultConfig) = true ∧
    is_human_readable
        (Config.BinaryConfig (Config.HumanReadableConfig Config.DefaultConfig)) =
      false :=
  ⟨rfl, rfl, rfl, rfl⟩

/-- Claim C7: `StructMapConfig` writes a field as the key string
followed by the value, and opens records with a map-length instruction
for the given field count. -/
theorem C7_struct_map_fields (α β : Type) (c : Config) (k : String)
    (v : β) (n : Nat) :
    write_struct_field (α := α) (Config.StructMapConfig c) k v =
      [Token.str k, Token.value v] ∧
    write_struct_len (α := α) (β := β) (Config.StructMapConfig c) n =
      [Token.mapLen (n % 2 ^ 32)] :=
  ⟨rfl, rfl⟩

/-- Claim C8: the mode decorators `HumanReadableConfig` and
`BinaryConfig` override only `is_human_readable`; every other hook
produces exactly the inner configuration's result. -/
theorem C8_mode_decorators_delegate (α β : Type) (c : Config) (n : Nat)
    (k : String) (v : β) (i : Nat) (vname : String) (e : Ext α)
    (m : Marker) (der : List (Token α β)) :
    (write_struct_len (α := α) (β := β) (Config.HumanReadableConfig c) n =
        write_struct_len c n ∧
     write_struct_field (α := α) (Config.HumanReadableConfig c) k v =
        write_struct_field c k v ∧
     write_variant_ident (α := α) (β := β) (Config.HumanReadableConfig c) i vname =
        write_variant_ident c i vname ∧
     write_ext (β := β) (Config.HumanReadableConfig c) e = write_ext c e ∧
     try_read_ext (Config.HumanReadableConfig c) der m = try_read_ext c der m) ∧
    (write_struct_len (α := α) (β := β) (Config.BinaryConfig c) n =
        write_struct_len c n ∧
     write_struct_field (α := α) (Config.BinaryConfig c) k v =
        write_struct_field c k v ∧
     write_variant_ident (α := α) (β := β) (Config.BinaryConfig c) i vname =
        write_variant_ident c i vname ∧
     write_ext (β := β) (Config.BinaryConfig c) e = write_ext c e ∧
     try_read_ext (Config.BinaryConfig c) der m = try_read_ext c der m) :=
  ⟨⟨rfl, rfl, rfl, rfl, rfl⟩, ⟨rfl, rfl, rfl, rfl, rfl⟩⟩

/-- Claim C9: the shape decorators `StructMapConfig` and
`StructTupleConfig` leave readability, variant tagging and the extension
hooks to the inner configuration. -/
theorem C9_shape_decorators_delegate (α β : Type) (c : Config) (i : Nat)
    (vname : String) (e : Ext α) (m : Marker) (der : List (Token α β)) :
    (is_human_readable (Config.StructMapConfig c) = is_human_readable c ∧
     write_variant_ident (α := α) (β := β) (Config.StructMapConfig c) i vname =
        write_variant_ident c i vname ∧
     write_ext (β := β) (Config.StructMapConfig c) e = write_ext c e ∧
     try_read_ext (Config.StructMapConfig c) der m = try_read_ext c der m) ∧
    (is_human_readable (Config.StructTupleConfig c) = is_human_readable c ∧
     write_variant_ident (α := α) (β := β) (Config.StructTupleConfig c) i vname =
        write_variant_ident c i vname ∧
     write_ext (β := β) (Config.StructTupleConfig c) e = write_ext c e ∧
     try_read_ext (Config.StructTupleConfig c) der m = try_read_ext c der m) :=
  ⟨⟨rfl, rfl, rfl, rfl⟩, ⟨rfl, rfl, rfl, rfl⟩⟩

/-- Claim C10: `write_struct_len` emits the length as `len as u32`, i.e.
`len % 2 ^ 32`, in `DefaultConfig`, `StructMapConfig` and
`StructTupleConfig`; for a field count of `2 ^ 32` or more the emitted
length silently wraps and differs from the exact count. -/
theorem C10_u32_wrap (α β : Type) (c1 c2 : Config) (n : Nat) :
    write_struct_len (α := α) (β := β) Config.DefaultConfig n =
      [Token.arrayLen (n % 2 ^ 32)] ∧
    write_struct_len (α := α) (β := β) (Config.StructMapConfig c1) n =
      [Token.mapLen (n % 2 ^ 32)] ∧
    write_struct_len (α := α) (β := β) (Config.StructTupleConfig c2) n =
      [Token.arrayLen (n % 2 ^ 32)] ∧
    (2 ^ 32 ≤ n → n % 2 ^ 32 ≠ n) := by
  refine ⟨rfl, rfl, rfl, fun h => ?_⟩
  have hlt := Nat.mod_lt n (show 0 < 2 ^ 32 by norm_num)
  omega

/-- Claim C10 witness: at the concrete field count `2 ^ 32` the emitted
length is `0`, not `2 ^ 32`. -/
theorem C10_u32_wrap_witness :
    write_struct_len (α := Unit) (β := Unit) Config.DefaultConfig (2 ^ 32) =
      [Token.arrayLen 0] ∧
    ¬ ((2 ^ 32 : Nat) % 2 ^ 32 = 2 ^ 32) := by
  have h := C10_u32_wrap Unit Unit Config.DefaultConfig Config.DefaultConfig (2 ^ 32)
  refine ⟨?_, h.2.2.2 le_rfl⟩
  rw [h.1, Nat.mod_self]

end RmpSerde
